import Mathlib

/-!
Verification of the multer-azure-blob-storage adapter
(`src/MulterAzureStorage.ts`) against its specification.

The adapter is a configuration-driven pass-through: a constructor that
resolves credentials and option defaults, and two asynchronous operations
(store and remove) that issue calls to the Azure SDK. The shallow embedding
below models:

 - JavaScript option records and environment variables as `Option String`
   fields together with the JS truthiness of strings (the empty string is
   falsy, like `undefined`/`null`);
 - the constructor as a pure function returning
   `Except ConfigurationError MASConfig` (the two `throw new Error` sites);
 - asynchronous resolvers as plain functions `Request → MulterFile → T`
   (the adapter awaits them sequentially, so promise scheduling is
   irrelevant to the properties proved here);
 - nondeterministic inputs (the `Date.now()` clock and the `uuid.v4()`
   generator) as explicit oracle parameters threaded to the call sites
   that read them;
 - the SDK calls issued by the store and remove operations as an
   explicit effect trace (container `createIfNotExists`, `uploadStream`,
   `generateSasUrl`, `deleteIfExists`), with the container namespace as a
   `List String` state and the blob-property fetch / SAS-URL signing as
   oracle responses.
-/

/-! JS string truthiness and option-record helpers. -/

/-- Truthiness of an optional JS string: `undefined`, `null` and `""` are
falsy, every nonempty string is truthy. -/
def strTruthy : Option String → Bool
  | none => false
  | some s => !(s == "")

/-- JS `a || b || null`: the first truthy operand, else `null` (`none`). -/
def jsOr (a b : Option String) : Option String :=
  if strTruthy a then a else if strTruthy b then b else none

/-- JS template-literal interpolation of a possibly-undefined string:
interpolating `undefined` yields the text "undefined". -/
def jsTemplateString : Option String → String
  | none => "undefined"
  | some s => s

/-! Data model, mirroring the exported types of `MulterAzureStorage.ts`. -/

/-- Content settings forwarded verbatim to the blob store as HTTP headers
(interface `MASContentSettings`); `contentMD5` is a byte array. -/
structure MASContentSettings where
  cacheControl : Option String := none
  contentType : Option String := none
  contentMD5 : Option (List Nat) := none
  contentEncoding : Option String := none
  contentLanguage : Option String := none
  contentDisposition : Option String := none
deriving DecidableEq

/-- Blob metadata: a string-to-string mapping (type `MASMetadata`),
modelled as an association list. -/
abbrev MASMetadata := List (String × String)

/-- Container access level enum (`MASContainerAccessLevel`). -/
inductive MASContainerAccessLevel where
  | PublicContainer
  | PublicBlob
  | Private
deriving DecidableEq

/-- An opaque incoming request (`express.Request`); the adapter only passes
it to resolvers, so its contents are irrelevant. -/
structure Request where
  reqId : Nat
deriving DecidableEq

/-- An incoming multer file (`Express.Multer.File`): the fields the adapter
reads plus the remaining fields it must pass through unchanged. The byte
stream is an opaque token. -/
structure MulterFile where
  fieldname : String
  originalname : String
  encoding : String
  mimetype : String
  size : Nat
  stream : Nat
  destination : String
  filename : String
  path : String
  buffer : List Nat
deriving DecidableEq

/-- A resolver (`MASResolverFunction<T>`): an async function of the request
and file, modelled as a pure function. -/
abbrev MASResolverFunction (T : Type) := Request → MulterFile → T

/-- An option that is either a static value or a resolver function
(the `MASResolverFunction<T> | T` unions in `IMASOptions`). -/
inductive MASOptionValue (T : Type) where
  | fn (f : MASResolverFunction T)
  | val (v : T)

/-- The `urlExpirationTime?: number | false` option: absent/`null`,
the explicit `false` sentinel, or a number (modelled as a rational,
since JS numbers here are only compared and scaled linearly). -/
inductive MASUrlExpiration where
  | unset
  | disabled
  | num (n : Rat)

/-- Constructor options (`IMASOptions`). Every field is optional at the
JS level; `containerName` is required by the TS type but checked at
runtime, so it is an `Option` here too. -/
structure IMASOptions where
  accessKey : Option String := none
  accountName : Option String := none
  connectionString : Option String := none
  urlExpirationTime : MASUrlExpiration := MASUrlExpiration.unset
  blobName : Option (MASResolverFunction String) := none
  containerName : Option (MASOptionValue String) := none
  autoCreateContainer : Option Bool := none
  metadata : Option (MASOptionValue MASMetadata) := none
  contentSettings : Option (MASOptionValue MASContentSettings) := none
  containerAccessLevel : Option MASContainerAccessLevel := none

/-- The descriptor returned to multer on success (`MulterOutFile`): all
fields of the original file plus the storage-specific fields. -/
structure MulterOutFile where
  fieldname : String
  originalname : String
  encoding : String
  mimetype : String
  size : Nat
  stream : Nat
  destination : String
  filename : String
  path : String
  buffer : List Nat
  url : String
  etag : Option String
  metadata : Option MASMetadata
  containerName : String
  blobName : String
  blobType : Option String
  blobSize : Option Nat
deriving DecidableEq

/-- Default container access level (`DEFAULT_CONTAINER_ACCESS_LEVEL`). -/
def DEFAULT_CONTAINER_ACCESS_LEVEL : MASContainerAccessLevel :=
  MASContainerAccessLevel.Private

/-- Default URL expiration time in minutes (`DEFAULT_URL_EXPIRATION_TIME`). -/
def DEFAULT_URL_EXPIRATION_TIME : Rat := 60

/-- `promisifyValue`: lift a static value into a resolver that always
resolves to it. -/
def promisifyValue {T : Type} (value : T) : MASResolverFunction T :=
  fun _ _ => value

/-- `promisifyOption`: a function is used as the resolver unchanged, any
other value is lifted with `promisifyValue`. -/
def promisifyOption {T : Type} : MASOptionValue T → MASResolverFunction T
  | MASOptionValue.fn f => f
  | MASOptionValue.val v => promisifyValue v

/-! Model of node's `path.extname`, the one external helper the default
blob-name generator uses. Translated from the algorithm of node's
`path.posix.extname`: take the last path component (ignoring trailing
slashes), find its last dot; return the suffix from that dot, except that
a dot in first position, a missing dot, or the component ".." yield "". -/

/-- Reversed last path component: drop trailing slashes, then take the
trailing run of non-slash characters (result is reversed). -/
def basenameRev (s : List Char) : List Char :=
  (s.reverse.dropWhile (fun c => c == '/')).takeWhile (fun c => !(c == '/'))

/-- Scan a reversed component for its last dot: returns the (reversed)
characters that follow the last dot, or `none` when there is no dot. -/
def afterLastDot : List Char → Option (List Char)
  | [] => none
  | c :: rest =>
      if c == '.' then some [] else (afterLastDot rest).map (fun l => c :: l)

/-- Extension extraction on a reversed last path component: the suffix
from the component's last dot, with "" when there is no dot, when the only
dot is the component's first character (the dot together with what follows
it spans the whole component), or for the component "..". -/
def extnameCore (brev : List Char) : String :=
  match afterLastDot brev with
  | none => ""
  | some afterRev =>
      if afterRev.length + 1 == brev.length then ""
      else if brev == ['.', '.'] then ""
      else String.mk ('.' :: afterRev.reverse)

/-- Node `path.extname`: the extension of the last path component from its
last dot to the end. -/
def extname (s : String) : String :=
  extnameCore (basenameRev s.data)

/-- `generateBlobName`: the default blob-name resolver,
`Date.now() ++ "-" ++ uuid.v4() ++ extname(file.originalname)`. The clock
reading (unix milliseconds) and the generated UUID are oracle inputs. -/
def generateBlobName (now : Nat) (uuid : String) (_req : Request)
    (file : MulterFile) : String :=
  Nat.repr now ++ "-" ++ uuid ++ extname file.originalname

/-! Constructor. -/

/-- The three environment variables the constructor may fall back to. -/
structure AzureEnv where
  azureStorageConnectionString : Option String := none
  azureStorageAccessKey : Option String := none
  azureStorageAccount : Option String := none

/-- The two configuration failures thrown synchronously by the constructor
(the spec's ConfigurationError kind). -/
inductive ConfigurationError where
  | missingCredentials
  | missingContainerName
deriving DecidableEq

/-- The blob service client the constructor initialises: either built from
a connection string, or from a shared-key credential together with the
service URL it is addressed to. -/
inductive BlobServiceClientModel where
  | fromConnectionString (conn : String)
  | sharedKey (url : String) (credAccountName : String) (credAccessKey : String)
deriving DecidableEq

/-- The constructed adapter state (the private fields of
`MulterAzureStorage`). `blobNameR = none` means the default
`generateBlobName` resolver is used at call time (it needs the clock and
UUID oracles, so the defaulting is realised at the call site). -/
structure MASConfig where
  serviceClient : BlobServiceClientModel
  containerNameR : MASResolverFunction String
  containerAccessLevel : MASContainerAccessLevel
  metadataR : Option (MASResolverFunction MASMetadata)
  contentSettingsR : Option (MASResolverFunction MASContentSettings)
  blobNameR : Option (MASResolverFunction String)
  urlExpirationTime : Option Rat
  autoCreateContainer : Bool

/-- Credential resolution (constructor lines 90-99): each source falls back
to its environment variable under JS `||`; a connection string wins,
otherwise a complete access-key + account-name pair. -/
def resolveConnection (env : AzureEnv) (options : IMASOptions) :
    Option (String ⊕ String × String) :=
  let connectionString := jsOr options.connectionString env.azureStorageConnectionString
  let accessKey := jsOr options.accessKey env.azureStorageAccessKey
  let accountName := jsOr options.accountName env.azureStorageAccount
  match connectionString with
  | some cs => some (Sum.inl cs)
  | none =>
      match accessKey, accountName with
      | some k, some a => some (Sum.inr (a, k))
      | _, _ => none

/-- JS truthiness of the `containerName` option value: a resolver function
is truthy, a string is truthy iff nonempty. -/
def containerNameOptTruthy : MASOptionValue String → Bool
  | MASOptionValue.fn _ => true
  | MASOptionValue.val s => !(s == "")

/-- Resolution of `_urlExpirationTime` (constructor lines 117-123):
explicit `false` disables expiry (`null`), unset or nonpositive numbers
fall back to the 60-minute default, positive numbers pass through. -/
def resolveUrlExpirationTime : MASUrlExpiration → Option Rat
  | MASUrlExpiration.disabled => none
  | MASUrlExpiration.unset => some DEFAULT_URL_EXPIRATION_TIME
  | MASUrlExpiration.num n =>
      if n ≤ 0 then some DEFAULT_URL_EXPIRATION_TIME else some n

/-- The field assignments of the constructor once both throw checks have
passed (lines 106-132). `cn` is the (truthy) container-name option and
`conn` the resolved credential. Note the service URL of the shared-key
branch interpolates the raw `options.accountName`, not the resolved
account name. -/
def buildConfig (conn : String ⊕ String × String) (cn : MASOptionValue String)
    (options : IMASOptions) : MASConfig :=
  { serviceClient :=
      match conn with
      | Sum.inl cs => BlobServiceClientModel.fromConnectionString cs
      | Sum.inr ak =>
          BlobServiceClientModel.sharedKey
            ("https://" ++ jsTemplateString options.accountName ++ ".blob.core.windows.net")
            ak.1 ak.2
    containerNameR := promisifyOption cn
    containerAccessLevel := options.containerAccessLevel.getD DEFAULT_CONTAINER_ACCESS_LEVEL
    metadataR := options.metadata.map promisifyOption
    contentSettingsR := options.contentSettings.map promisifyOption
    blobNameR := options.blobName
    urlExpirationTime := resolveUrlExpirationTime options.urlExpirationTime
    autoCreateContainer := options.autoCreateContainer.getD true }

/-- The constructor of `MulterAzureStorage` (lines 88-133): throws when no
credential resolves, then when the container-name option is falsy
(missing or the empty string); otherwise builds the adapter state. -/
def MulterAzureStorage.construct (env : AzureEnv) (options : IMASOptions) :
    Except ConfigurationError MASConfig :=
  match resolveConnection env options with
  | none => Except.error ConfigurationError.missingCredentials
  | some conn =>
      match options.containerName with
      | none => Except.error ConfigurationError.missingContainerName
      | some cn =>
          if containerNameOptTruthy cn = false then
            Except.error ConfigurationError.missingContainerName
          else
            Except.ok (buildConfig conn cn options)

/-! Effect-trace model of the SDK calls the two operations issue. -/

/-- The `containerClient.createIfNotExists` call record: the container and
the public-access argument (`none` is the SDK's "no public access"). -/
structure ContainerCreateIfNotExistsCall where
  containerName : String
  access : Option MASContainerAccessLevel
deriving DecidableEq

/-- The `blockBlobClient.uploadStream` call record: target names, the
stream token, the metadata argument (`none` when absent) and the blob HTTP
headers (option fields named as the SDK's `BlobHTTPHeaders`). -/
structure UploadStreamCall where
  containerName : String
  blobName : String
  stream : Nat
  metadata : Option MASMetadata
  blobCacheControl : Option String
  blobContentType : Option String
  blobContentMD5 : Option (List Nat)
  blobContentEncoding : Option String
  blobContentLanguage : Option String
  blobContentDisposition : Option String
deriving DecidableEq

/-- The `blockBlobClient.generateSasUrl` call record: `expiresOn` (unix
milliseconds, `none` when the option is omitted) and the read permission. -/
structure GenerateSasUrlCall where
  containerName : String
  blobName : String
  expiresOn : Option Rat
  readPermission : Bool
deriving DecidableEq

/-- The `blockBlobClient.deleteIfExists` call record. -/
structure DeleteIfExistsCall where
  containerName : String
  blobName : String
deriving DecidableEq

/-- The blob-property response the store operation fetches after the
upload (`getProperties`). -/
structure BlobProperties where
  etag : Option String := none
  metadata : Option MASMetadata := none
  blobType : Option String := none
  contentLength : Option Nat := none
deriving DecidableEq

/-- Calls issued by one store operation, in issue order. -/
structure StoreEffects where
  createCall : Option ContainerCreateIfNotExistsCall
  uploadCall : UploadStreamCall
  sasRequest : GenerateSasUrlCall

/-- Calls issued by one remove operation, in issue order. -/
structure RemoveEffects where
  createCall : Option ContainerCreateIfNotExistsCall
  deleteCall : DeleteIfExistsCall

/-- Result of a store operation: the effect trace, the container namespace
after it, and the descriptor returned to multer. -/
structure StoreResult where
  effects : StoreEffects
  containersAfter : List String
  outFile : MulterOutFile

/-- Result of a remove operation. -/
structure RemoveResult where
  effects : RemoveEffects
  containersAfter : List String

/-- `_getContainerClient` (lines 194-201): when auto-creation is on, issue
`createIfNotExists` with the configured access level mapped to "no public
access" for `Private`; the container namespace gains the container if it
was absent, and the call never fails. -/
def _getContainerClient (cfg : MASConfig) (containers : List String)
    (containerName : String) :
    Option ContainerCreateIfNotExistsCall × List String :=
  if cfg.autoCreateContainer then
    let publicAccessLevel :=
      if cfg.containerAccessLevel = MASContainerAccessLevel.Private then none
      else some cfg.containerAccessLevel
    (some { containerName := containerName, access := publicAccessLevel },
     if containerName ∈ containers then containers else containers ++ [containerName])
  else
    (none, containers)

/-- `this._urlExpirationTime ? new Date(Date.now() + t * 60 * 1000) :
undefined` (line 171): JS numeric truthiness makes `null` and `0` yield no
expiry. -/
def expiresOnFor (urlExpirationTime : Option Rat) (now : Rat) : Option Rat :=
  match urlExpirationTime with
  | none => none
  | some n => if n = 0 then none else some (now + n * 60 * 1000)

/-- Blob-name resolution at the top of both operations: the configured
resolver, or the default `generateBlobName` (line 115) fed by the clock
and UUID oracles. -/
def resolveBlobName (cfg : MASConfig) (req : Request) (file : MulterFile)
    (now : Nat) (uuid : String) : String :=
  match cfg.blobNameR with
  | some f => f req file
  | none => generateBlobName now uuid req file

/-- `_handleFileAsync` (lines 146-184) as a pure trace function. Oracle
inputs: `nowName`/`uuid` feed the default blob-name generator,
`nowSas` is the clock at the SAS request, `blobProperties` is the
`getProperties` response and `sasUrl` the signed URL the SDK returns. -/
def _handleFileAsync (cfg : MASConfig) (req : Request) (file : MulterFile)
    (nowName : Nat) (uuid : String) (nowSas : Rat) (containers : List String)
    (blobProperties : BlobProperties) (sasUrl : String) : StoreResult :=
  let containerName : String := cfg.containerNameR req file
  let blobName : String := resolveBlobName cfg req file nowName uuid
  let contentSettings : MASContentSettings :=
    match cfg.contentSettingsR with
    | some f => f req file
    | none => { contentType := some file.mimetype, contentDisposition := some "inline" }
  let metadata : Option MASMetadata := cfg.metadataR.map (fun f => f req file)
  let gcc := _getContainerClient cfg containers containerName
  { effects :=
      { createCall := gcc.1
        uploadCall :=
          { containerName := containerName
            blobName := blobName
            stream := file.stream
            metadata := metadata
            blobCacheControl := contentSettings.cacheControl
            blobContentType := contentSettings.contentType
            blobContentMD5 := contentSettings.contentMD5
            blobContentEncoding := contentSettings.contentEncoding
            blobContentLanguage := contentSettings.contentLanguage
            blobContentDisposition := contentSettings.contentDisposition }
        sasRequest :=
          { containerName := containerName
            blobName := blobName
            expiresOn := expiresOnFor cfg.urlExpirationTime nowSas
            readPermission := true } }
    containersAfter := gcc.2
    outFile :=
      { fieldname := file.fieldname
        originalname := file.originalname
        encoding := file.encoding
        mimetype := file.mimetype
        size := file.size
        stream := file.stream
        destination := file.destination
        filename := file.filename
        path := file.path
        buffer := file.buffer
        url := sasUrl
        etag := blobProperties.etag
        metadata := blobProperties.metadata
        containerName := containerName
        blobName := blobName
        blobType := blobProperties.blobType
        blobSize := blobProperties.contentLength } }

/-- `_removeFileAsync` (lines 186-192) as a pure trace function: resolve
the same names as store, obtain the container client (auto-creating the
container when configured), then `deleteIfExists`. -/
def _removeFileAsync (cfg : MASConfig) (req : Request) (file : MulterFile)
    (nowName : Nat) (uuid : String) (containers : List String) : RemoveResult :=
  let containerName : String := cfg.containerNameR req file
  let blobName : String := resolveBlobName cfg req file nowName uuid
  let gcc := _getContainerClient cfg containers containerName
  { effects :=
      { createCall := gcc.1
        deleteCall := { containerName := containerName, blobName := blobName } }
    containersAfter := gcc.2 }

/-! Spec-side predicates and helper definitions used by the claims. -/

/-- Spec-side credential condition: a connection string, or a complete
account-name + access-key pair, is resolvable from the explicit options or
the environment fallbacks. -/
def credentialResolvable (env : AzureEnv) (options : IMASOptions) : Bool :=
  strTruthy (jsOr options.connectionString env.azureStorageConnectionString) ||
  (strTruthy (jsOr options.accessKey env.azureStorageAccessKey) &&
   strTruthy (jsOr options.accountName env.azureStorageAccount))

/-- Spec-side container-name condition: a container-name source is supplied
in the options (a resolver function, or a nonempty static string; an
absent or empty-string option counts as unsupplied, matching JS falsiness). -/
def containerNameSupplied (options : IMASOptions) : Bool :=
  match options.containerName with
  | none => false
  | some v => containerNameOptTruthy v

/-- Whether a construction attempt threw a ConfigurationError. -/
def isConfigError {α : Type} : Except ConfigurationError α → Bool
  | Except.error _ => true
  | Except.ok _ => false

/-- Minutes expressed in unix milliseconds. -/
def minutesToMs (n : Rat) : Rat := n * 60 * 1000

/-- The configuration a successful construction produces (used to phrase
closed witness statements; the error branch returns an arbitrary
configuration and is never hit in the witnesses). -/
def cfgOf (env : AzureEnv) (options : IMASOptions) : MASConfig :=
  match MulterAzureStorage.construct env options with
  | Except.ok c => c
  | Except.error _ => buildConfig (Sum.inl "") (MASOptionValue.val "") options

/-! Concrete fixtures for the witness statements. -/

/-- A request fixture. -/
def reqW : Request := { reqId := 0 }

/-- A file fixture with an extension-bearing original name. -/
def fileW : MulterFile :=
  { fieldname := "file"
    originalname := "photo.png"
    encoding := "7bit"
    mimetype := "image/png"
    size := 3
    stream := 7
    destination := ""
    filename := ""
    path := ""
    buffer := [] }

/-- A blob-property response fixture. -/
def propsW : BlobProperties :=
  { etag := some "0x1", metadata := none, blobType := some "BlockBlob"
    contentLength := some 3 }

/-- An environment fixture carrying only an account name. -/
def envAccountOnly : AzureEnv := { azureStorageAccount := some "myacct" }

/-- An empty environment fixture. -/
def envEmpty : AzureEnv := {}

/-- Options supplying an access key and a container name, but no account
name and no connection string (the account name must come from the
environment). -/
def optsEnvAccount : IMASOptions :=
  { accessKey := some "key1"
    containerName := some (MASOptionValue.val "uploads") }

/-- Options with a connection string, a static container name and a
5-minute URL expiration. -/
def optsExpiry : IMASOptions :=
  { connectionString := some "UseDevelopmentStorage=true"
    urlExpirationTime := MASUrlExpiration.num 5
    containerName := some (MASOptionValue.val "uploads") }

/-- Options with a connection string and a static container name only. -/
def optsPlain : IMASOptions :=
  { connectionString := some "UseDevelopmentStorage=true"
    containerName := some (MASOptionValue.val "uploads") }

/-- Options with static values for container name, metadata and content
settings. -/
def optsStatic : IMASOptions :=
  { connectionString := some "UseDevelopmentStorage=true"
    containerName := some (MASOptionValue.val "uploads")
    metadata := some (MASOptionValue.val [("k", "v")])
    contentSettings := some (MASOptionValue.val { contentType := some "text/plain" }) }

/-- Options with an explicitly private access level (auto-creation left at
its default, which is on). -/
def optsPrivate : IMASOptions :=
  { connectionString := some "UseDevelopmentStorage=true"
    containerName := some (MASOptionValue.val "uploads")
    containerAccessLevel := some MASContainerAccessLevel.Private }

/-! Helper lemmas. -/

/-- The result of `jsOr` is truthy exactly when it is present: `jsOr`
never returns an empty string. -/
theorem strTruthy_jsOr (a b : Option String) :
    strTruthy (jsOr a b) = (jsOr a b).isSome := by
  unfold jsOr
  split
  · next h =>
      cases a with
      | none => simp [strTruthy] at h
      | some s => simp [h]
  · split
    · next h =>
        cases b with
        | none => simp [strTruthy] at h
        | some s => simp [h]
    · simp [strTruthy]

/-- Credential resolution fails exactly when the spec-side credential
condition is false. -/
theorem resolveConnection_none_iff (env : AzureEnv) (options : IMASOptions) :
    resolveConnection env options = none ↔
      credentialResolvable env options = false := by
  unfold resolveConnection credentialResolvable
  rw [strTruthy_jsOr, strTruthy_jsOr, strTruthy_jsOr]
  cases hcs : jsOr options.connectionString env.azureStorageConnectionString <;>
    cases hak : jsOr options.accessKey env.azureStorageAccessKey <;>
      cases han : jsOr options.accountName env.azureStorageAccount <;>
        simp [hcs, hak, han]

/-- Inversion of a successful construction: the credential resolved, the
container-name option was present, and the configuration is the one
`buildConfig` assembles. -/
theorem construct_ok_elim {env : AzureEnv} {options : IMASOptions} {cfg : MASConfig}
    (h : MulterAzureStorage.construct env options = Except.ok cfg) :
    ∃ conn cn, resolveConnection env options = some conn ∧
      options.containerName = some cn ∧ cfg = buildConfig conn cn options := by
  unfold MulterAzureStorage.construct at h
  split at h
  · exact absurd h (by simp)
  · next conn hrc =>
      split at h
      · exact absurd h (by simp)
      · next cn hcn =>
          split at h
          · exact absurd h (by simp)
          · injection h with h2
            exact ⟨conn, cn, hrc, hcn, h2.symm⟩

/-- The extension computed by `extname` is empty or starts with a dot. -/
theorem extname_blank_or_dot (s : String) :
    extname s = "" ∨ (extname s).data.head? = some '.' := by
  unfold extname extnameCore
  cases h : afterLastDot (basenameRev s.data) with
  | none => exact Or.inl rfl
  | some afterRev =>
      split
      · exact Or.inl rfl
      · split
        · exact Or.inl rfl
        · split
          · exact Or.inl rfl
          · exact Or.inr rfl

/-! Claim theorems. -/

/-- C1: construction throws a ConfigurationError if and only if no
credential (connection string, or complete account-name + access-key pair)
is resolvable from the explicit options or the environment variables, or
no container-name source is supplied in the options; otherwise
construction succeeds without throwing. -/
theorem construct_configuration_error_iff (env : AzureEnv) (options : IMASOptions) :
    isConfigError (MulterAzureStorage.construct env options) = true ↔
      (credentialResolvable env options = false ∨
       containerNameSupplied options = false) := by
  have hcred := resolveConnection_none_iff env options
  unfold MulterAzureStorage.construct
  cases hrc : resolveConnection env options with
  | none =>
      rw [hrc] at hcred
      simp [isConfigError, hcred.mp rfl]
  | some conn =>
      rw [hrc] at hcred
      have hct : credentialResolvable env options = true := by
        rcases Bool.eq_false_or_eq_true (credentialResolvable env options) with hb | hb
        · exact hb
        · exact absurd (hcred.mpr hb) (by simp)
      cases hcn : options.containerName with
      | none => simp [isConfigError, containerNameSupplied, hcn, hct]
      | some cn =>
          by_cases ht : containerNameOptTruthy cn = false <;>
            simp [isConfigError, containerNameSupplied, hcn, hct, ht]

/-- C2 (code bug evaluation): when the account name is supplied only
through the AZURE_STORAGE_ACCOUNT environment variable (access key in the
options, no connection string), construction succeeds, but the blob
service client's URL interpolates the absent `options.accountName` as
"undefined" instead of the environment-resolved account name — even
though the shared-key credential itself uses the resolved name. -/
theorem env_account_endpoint_eval :
    Except.map (fun c : MASConfig => c.serviceClient)
        (MulterAzureStorage.construct envAccountOnly optsEnvAccount) =
      Except.ok (BlobServiceClientModel.sharedKey
        "https://undefined.blob.core.windows.net" "myacct" "key1") ∧
    ("https://undefined.blob.core.windows.net" : String) ≠
      "https://myacct.blob.core.windows.net" :=
  ⟨rfl, by decide⟩

/-- C3: the expiry carried by the signed-URL request of the store
operation: none when `urlExpirationTime` was the explicit `false`; the
request time plus 60 minutes when it was unset or nonpositive; the request
time plus N minutes for a positive N. -/
theorem sas_expiry_policy (env : AzureEnv) (options : IMASOptions) (cfg : MASConfig)
    (req : Request) (file : MulterFile) (nowName : Nat) (uuid : String) (nowSas : Rat)
    (containers : List String) (props : BlobProperties) (sasUrl : String)
    (h : MulterAzureStorage.construct env options = Except.ok cfg) :
    (_handleFileAsync cfg req file nowName uuid nowSas containers props
        sasUrl).effects.sasRequest.expiresOn =
      match options.urlExpirationTime with
      | MASUrlExpiration.disabled => none
      | MASUrlExpiration.unset => some (nowSas + minutesToMs 60)
      | MASUrlExpiration.num n =>
          if n ≤ 0 then some (nowSas + minutesToMs 60)
          else some (nowSas + minutesToMs n) := by
  obtain ⟨conn, cn, hrc, hcn, hcfg⟩ := construct_ok_elim h
  subst hcfg
  show expiresOnFor (resolveUrlExpirationTime options.urlExpirationTime) nowSas = _
  cases options.urlExpirationTime with
  | disabled => rfl
  | unset =>
      show expiresOnFor (some DEFAULT_URL_EXPIRATION_TIME) nowSas = _
      have h60 : (DEFAULT_URL_EXPIRATION_TIME : Rat) ≠ 0 := by
        unfold DEFAULT_URL_EXPIRATION_TIME; norm_num
      simp [expiresOnFor, h60, DEFAULT_URL_EXPIRATION_TIME, minutesToMs]
  | num n =>
      by_cases hn : n ≤ 0
      · have h60 : (DEFAULT_URL_EXPIRATION_TIME : Rat) ≠ 0 := by
          unfold DEFAULT_URL_EXPIRATION_TIME; norm_num
        simp [resolveUrlExpirationTime, expiresOnFor, hn, h60,
          DEFAULT_URL_EXPIRATION_TIME, minutesToMs]
      · have hnz : ¬ n = 0 := fun h0 => hn (le_of_eq h0)
        simp [resolveUrlExpirationTime, expiresOnFor, hn, hnz, minutesToMs]

/-- C3 witness: a 5-minute expiration requested at clock 1000 yields
expiry 1000 + 5 minutes. -/
theorem sas_expiry_policy_witness :
    MulterAzureStorage.construct envEmpty optsExpiry = Except.ok (cfgOf envEmpty optsExpiry) ∧
    (_handleFileAsync (cfgOf envEmpty optsExpiry) reqW fileW 5 "u" 1000 [] propsW
        "url").effects.sasRequest.expiresOn = some (1000 + minutesToMs 5) := by
  refine ⟨rfl, ?_⟩
  have hm := sas_expiry_policy envEmpty optsExpiry (cfgOf envEmpty optsExpiry)
    reqW fileW 5 "u" 1000 [] propsW "url" rfl
  rw [hm]
  norm_num [optsExpiry]

/-- C4: with no content-settings resolver configured, the upload call's
blob HTTP headers are exactly the content type set to the file's MIME type
and the content disposition set to "inline"; cache control, MD5, encoding
and language are all unset. -/
theorem default_content_settings_headers (env : AzureEnv) (options : IMASOptions)
    (cfg : MASConfig) (req : Request) (file : MulterFile) (nowName : Nat)
    (uuid : String) (nowSas : Rat) (containers : List String)
    (props : BlobProperties) (sasUrl : String)
    (h : MulterAzureStorage.construct env options = Except.ok cfg)
    (hcs : options.contentSettings = none) :
    (_handleFileAsync cfg req file nowName uuid nowSas containers props
        sasUrl).effects.uploadCall.blobCacheControl = none ∧
    (_handleFileAsync cfg req file nowName uuid nowSas containers props
        sasUrl).effects.uploadCall.blobContentType = some file.mimetype ∧
    (_handleFileAsync cfg req file nowName uuid nowSas containers props
        sasUrl).effects.uploadCall.blobContentMD5 = none ∧
    (_handleFileAsync cfg req file nowName uuid nowSas containers props
        sasUrl).effects.uploadCall.blobContentEncoding = none ∧
    (_handleFileAsync cfg req file nowName uuid nowSas containers props
        sasUrl).effects.uploadCall.blobContentLanguage = none ∧
    (_handleFileAsync cfg req file nowName uuid nowSas containers props
        sasUrl).effects.uploadCall.blobContentDisposition = some "inline" := by
  obtain ⟨conn, cn, hrc, hcn, hcfg⟩ := construct_ok_elim h
  subst hcfg
  simp [_handleFileAsync, buildConfig, hcs]

/-- C4 witness: storing a PNG with no content-settings resolver sets
exactly the content type and the inline disposition. -/
theorem default_content_settings_headers_witness :
    MulterAzureStorage.construct envEmpty optsPlain = Except.ok (cfgOf envEmpty optsPlain) ∧
    optsPlain.contentSettings = none ∧
    (_handleFileAsync (cfgOf envEmpty optsPlain) reqW fileW 5 "u" 1000 [] propsW
        "url").effects.uploadCall.blobContentType = some "image/png" ∧
    (_handleFileAsync (cfgOf envEmpty optsPlain) reqW fileW 5 "u" 1000 [] propsW
        "url").effects.uploadCall.blobContentDisposition = some "inline" := by
  have hm := default_content_settings_headers envEmpty optsPlain
    (cfgOf envEmpty optsPlain) reqW fileW 5 "u" 1000 [] propsW "url" rfl rfl
  exact ⟨rfl, rfl, hm.2.1, hm.2.2.2.2.2⟩

/-- C5: with no metadata resolver configured, the upload call receives no
metadata argument at all, and the descriptor's metadata field is exactly
what the property fetch reported. -/
theorem no_metadata_resolver_upload (env : AzureEnv) (options : IMASOptions)
    (cfg : MASConfig) (req : Request) (file : MulterFile) (nowName : Nat)
    (uuid : String) (nowSas : Rat) (containers : List String)
    (props : BlobProperties) (sasUrl : String)
    (h : MulterAzureStorage.construct env options = Except.ok cfg)
    (hm : options.metadata = none) :
    (_handleFileAsync cfg req file nowName uuid nowSas containers props
        sasUrl).effects.uploadCall.metadata = none ∧
    (_handleFileAsync cfg req file nowName uuid nowSas containers props
        sasUrl).outFile.metadata = props.metadata := by
  obtain ⟨conn, cn, hrc, hcn, hcfg⟩ := construct_ok_elim h
  subst hcfg
  exact ⟨by simp [_handleFileAsync, buildConfig, hm], rfl⟩

/-- C5 witness: with no metadata option, the upload carries no metadata
and the descriptor reports the fetched properties' metadata. -/
theorem no_metadata_resolver_upload_witness :
    MulterAzureStorage.construct envEmpty optsPlain = Except.ok (cfgOf envEmpty optsPlain) ∧
    optsPlain.metadata = none ∧
    (_handleFileAsync (cfgOf envEmpty optsPlain) reqW fileW 5 "u" 1000 [] propsW
        "url").effects.uploadCall.metadata = none ∧
    (_handleFileAsync (cfgOf envEmpty optsPlain) reqW fileW 5 "u" 1000 [] propsW
        "url").outFile.metadata = propsW.metadata := by
  have hm := no_metadata_resolver_upload envEmpty optsPlain
    (cfgOf envEmpty optsPlain) reqW fileW 5 "u" 1000 [] propsW "url" rfl rfl
  exact ⟨rfl, rfl, hm.1, hm.2⟩

/-- C6: with no blob-name resolver configured, the blob name used by the
upload is the unix-millisecond clock reading, a hyphen, the generated
UUID, then the original filename's extension — which is either empty (no
extension) or carries its leading dot. -/
theorem default_blob_name_shape (env : AzureEnv) (options : IMASOptions)
    (cfg : MASConfig) (req : Request) (file : MulterFile) (nowName : Nat)
    (uuid : String) (nowSas : Rat) (containers : List String)
    (props : BlobProperties) (sasUrl : String)
    (h : MulterAzureStorage.construct env options = Except.ok cfg)
    (hb : options.blobName = none) :
    (_handleFileAsync cfg req file nowName uuid nowSas containers props
        sasUrl).effects.uploadCall.blobName =
      Nat.repr nowName ++ "-" ++ uuid ++ extname file.originalname ∧
    (extname file.originalname = "" ∨
     (extname file.originalname).data.head? = some '.') := by
  obtain ⟨conn, cn, hrc, hcn, hcfg⟩ := construct_ok_elim h
  subst hcfg
  refine ⟨?_, extname_blank_or_dot file.originalname⟩
  simp [_handleFileAsync, resolveBlobName, buildConfig, hb, generateBlobName]

/-- C6 witness: storing `photo.png` at clock 5 with UUID "u" names the
blob "5-u.png", whose extension ".png" keeps its leading dot. -/
theorem default_blob_name_shape_witness :
    MulterAzureStorage.construct envEmpty optsPlain = Except.ok (cfgOf envEmpty optsPlain) ∧
    optsPlain.blobName = none ∧
    (_handleFileAsync (cfgOf envEmpty optsPlain) reqW fileW 5 "u" 1000 [] propsW
        "url").effects.uploadCall.blobName =
      Nat.repr 5 ++ "-" ++ "u" ++ extname "photo.png" ∧
    (extname "photo.png").data.head? = some '.' := by
  have hm := default_blob_name_shape envEmpty optsPlain
    (cfgOf envEmpty optsPlain) reqW fileW 5 "u" 1000 [] propsW "url" rfl rfl
  exact ⟨rfl, rfl, hm.1, by decide⟩

/-- C7: with auto-creation enabled, the container-creation call both
operations issue when obtaining the container client passes "no public
access"
(an absent access argument) for the private level and the configured level
for the public levels, and — being `createIfNotExists` — leaves an
existing container untouched rather than failing. -/
theorem container_create_access_mapping (cfg : MASConfig)
    (containers : List String) (containerName : String)
    (h : cfg.autoCreateContainer = true) :
    (cfg.containerAccessLevel = MASContainerAccessLevel.Private →
       (_getContainerClient cfg containers containerName).1 =
         some { containerName := containerName, access := none }) ∧
    (cfg.containerAccessLevel ≠ MASContainerAccessLevel.Private →
       (_getContainerClient cfg containers containerName).1 =
         some { containerName := containerName,
                access := some cfg.containerAccessLevel }) ∧
    (containerName ∈ containers →
       (_getContainerClient cfg containers containerName).2 = containers) ∧
    (∀ (req : Request) (file : MulterFile) (nowName : Nat) (uuid : String)
        (nowSas : Rat) (props : BlobProperties) (sasUrl : String),
       (_handleFileAsync cfg req file nowName uuid nowSas containers props
           sasUrl).effects.createCall =
         (_getContainerClient cfg containers (cfg.containerNameR req file)).1) ∧
    (∀ (req : Request) (file : MulterFile) (nowName : Nat) (uuid : String),
       (_removeFileAsync cfg req file nowName uuid containers).effects.createCall =
         (_getContainerClient cfg containers (cfg.containerNameR req file)).1) := by
  refine ⟨?_, ?_, ?_, ?_, ?_⟩
  · intro hx; simp [_getContainerClient, h, hx]
  · intro hx; simp [_getContainerClient, h, hx]
  · intro hx; simp [_getContainerClient, h, hx]
  · intro req file nowName uuid nowSas props sasUrl; rfl
  · intro req file nowName uuid; rfl

/-- C7 witness: a private-level configuration issues a creation call with
no public access for the already-existing container "uploads" and leaves
the namespace unchanged. -/
theorem container_create_access_mapping_witness :
    (cfgOf envEmpty optsPrivate).autoCreateContainer = true ∧
    (_getContainerClient (cfgOf envEmpty optsPrivate) ["uploads"] "uploads").1 =
      some { containerName := "uploads", access := none } ∧
    (_getContainerClient (cfgOf envEmpty optsPrivate) ["uploads"] "uploads").2 =
      ["uploads"] := by
  have hm := container_create_access_mapping (cfgOf envEmpty optsPrivate)
    ["uploads"] "uploads" rfl
  exact ⟨rfl, hm.1 rfl, hm.2.2.1 (by simp)⟩

/-- C8: a static container-name, metadata or content-settings value is
lifted into a resolver that returns exactly that value on every
request/file pair, and a resolver function passed through
`promisifyOption` is returned unchanged. -/
theorem static_option_resolver_identity (env : AzureEnv) (options : IMASOptions)
    (cfg : MASConfig) (s : String) (m : MASMetadata) (cs : MASContentSettings)
    (req : Request) (file : MulterFile) (f : MASResolverFunction String)
    (h : MulterAzureStorage.construct env options = Except.ok cfg)
    (hc : options.containerName = some (MASOptionValue.val s))
    (hm : options.metadata = some (MASOptionValue.val m))
    (hcs : options.contentSettings = some (MASOptionValue.val cs)) :
    cfg.containerNameR req file = s ∧
    cfg.metadataR.map (fun g => g req file) = some m ∧
    cfg.contentSettingsR.map (fun g => g req file) = some cs ∧
    promisifyOption (MASOptionValue.fn f) = f := by
  obtain ⟨conn, cn, hrc, hcn, hcfg⟩ := construct_ok_elim h
  subst hcfg
  rw [hcn] at hc
  injection hc with hc
  subst hc
  simp [buildConfig, hm, hcs, promisifyOption, promisifyValue]

/-- C8 witness: static container name "uploads", metadata and content
settings resolve to exactly the supplied values. -/
theorem static_option_resolver_identity_witness :
    MulterAzureStorage.construct envEmpty optsStatic = Except.ok (cfgOf envEmpty optsStatic) ∧
    (cfgOf envEmpty optsStatic).containerNameR reqW fileW = "uploads" ∧
    (cfgOf envEmpty optsStatic).metadataR.map (fun g => g reqW fileW) =
      some [("k", "v")] ∧
    (cfgOf envEmpty optsStatic).contentSettingsR.map (fun g => g reqW fileW) =
      some { contentType := some "text/plain" } := by
  have hm := static_option_resolver_identity envEmpty optsStatic
    (cfgOf envEmpty optsStatic) "uploads" [("k", "v")]
    { contentType := some "text/plain" } reqW fileW (fun _ _ => "x")
    rfl rfl rfl rfl
  exact ⟨rfl, hm.1, hm.2.1, hm.2.2.1⟩

/-- C9: the descriptor returned by a successful store carries every field
of the input file unchanged, and its added fields are the signed URL, the
fetched etag, metadata, blob type and size, and the very container and
blob names the upload used. -/
theorem descriptor_fields (cfg : MASConfig) (req : Request) (file : MulterFile)
    (nowName : Nat) (uuid : String) (nowSas : Rat) (containers : List String)
    (props : BlobProperties) (sasUrl : String) :
    ((_handleFileAsync cfg req file nowName uuid nowSas containers props
        sasUrl).outFile.fieldname = file.fieldname ∧
     (_handleFileAsync cfg req file nowName uuid nowSas containers props
        sasUrl).outFile.originalname = file.originalname ∧
     (_handleFileAsync cfg req file nowName uuid nowSas containers props
        sasUrl).outFile.encoding = file.encoding ∧
     (_handleFileAsync cfg req file nowName uuid nowSas containers props
        sasUrl).outFile.mimetype = file.mimetype ∧
     (_handleFileAsync cfg req file nowName uuid nowSas containers props
        sasUrl).outFile.size = file.size ∧
     (_handleFileAsync cfg req file nowName uuid nowSas containers props
        sasUrl).outFile.stream = file.stream ∧
     (_handleFileAsync cfg req file nowName uuid nowSas containers props
        sasUrl).outFile.destination = file.destination ∧
     (_handleFileAsync cfg req file nowName uuid nowSas containers props
        sasUrl).outFile.filename = file.filename ∧
     (_handleFileAsync cfg req file nowName uuid nowSas containers props
        sasUrl).outFile.path = file.path ∧
     (_handleFileAsync cfg req file nowName uuid nowSas containers props
        sasUrl).outFile.buffer = file.buffer) ∧
    (_handleFileAsync cfg req file nowName uuid nowSas containers props
        sasUrl).outFile.url = sasUrl ∧
    (_handleFileAsync cfg req file nowName uuid nowSas containers props
        sasUrl).outFile.etag = props.etag ∧
    (_handleFileAsync cfg req file nowName uuid nowSas containers props
        sasUrl).outFile.metadata = props.metadata ∧
    (_handleFileAsync cfg req file nowName uuid nowSas containers props
        sasUrl).outFile.blobType = props.blobType ∧
    (_handleFileAsync cfg req file nowName uuid nowSas containers props
        sasUrl).outFile.blobSize = props.contentLength ∧
    (_handleFileAsync cfg req file nowName uuid nowSas containers props
        sasUrl).outFile.containerName =
      (_handleFileAsync cfg req file nowName uuid nowSas containers props
        sasUrl).effects.uploadCall.containerName ∧
    (_handleFileAsync cfg req file nowName uuid nowSas containers props
        sasUrl).outFile.blobName =
      (_handleFileAsync cfg req file nowName uuid nowSas containers props
        sasUrl).effects.uploadCall.blobName :=
  ⟨⟨rfl, rfl, rfl, rfl, rfl, rfl, rfl, rfl, rfl, rfl⟩,
   rfl, rfl, rfl, rfl, rfl, rfl, rfl⟩

/-- C10: with auto-creation enabled (the default), removing a file whose
resolved container does not exist creates that container: a creation call
for it is issued and the container namespace afterwards contains it, so it
differs from the namespace before. -/
theorem remove_creates_container (cfg : MASConfig) (req : Request)
    (file : MulterFile) (nowName : Nat) (uuid : String) (containers : List String)
    (h1 : cfg.autoCreateContainer = true)
    (h2 : cfg.containerNameR req file ∉ containers) :
    (∃ c, (_removeFileAsync cfg req file nowName uuid containers).effects.createCall =
        some c ∧ c.containerName = cfg.containerNameR req file) ∧
    cfg.containerNameR req file ∈
      (_removeFileAsync cfg req file nowName uuid containers).containersAfter ∧
    (_removeFileAsync cfg req file nowName uuid containers).containersAfter ≠
      containers := by
  refine ⟨⟨{ containerName := cfg.containerNameR req file,
             access := if cfg.containerAccessLevel = MASContainerAccessLevel.Private
                       then none else some cfg.containerAccessLevel }, ?_, rfl⟩, ?_, ?_⟩
  · simp [_removeFileAsync, _getContainerClient, h1]
  · simp [_removeFileAsync, _getContainerClient, h1, h2]
  · simp only [_removeFileAsync, _getContainerClient, h1, if_true]
    intro heq
    have hlen := congrArg List.length heq
    simp [h2] at hlen
  
/-- C10 witness: removing against an empty container namespace creates
the resolved container "uploads". -/
theorem remove_creates_container_witness :
    (cfgOf envEmpty optsPrivate).autoCreateContainer = true ∧
    (cfgOf envEmpty optsPrivate).containerNameR reqW fileW ∉ ([] : List String) ∧
    (cfgOf envEmpty optsPrivate).containerNameR reqW fileW ∈
      (_removeFileAsync (cfgOf envEmpty optsPrivate) reqW fileW 5 "u" []).containersAfter := by
  have hm := remove_creates_container (cfgOf envEmpty optsPrivate) reqW fileW 5 "u" []
    rfl (by simp)
  exact ⟨rfl, by simp, hm.2.1⟩
